import Mathlib

/-!
Shallow embedding of `map_nav_src/r2r/env.py` (class `R2RNavBatch` and the
helpers it uses), together with proofs about the embedded operations.

Modelling conventions:
* viewpoint identifiers are strings, as in the source;
* Python floats are embedded as rationals (all the arithmetic performed by
  the evaluated claims is exact field arithmetic);
* Python exceptions are embedded as an error type returned through `Except`;
  reading an attribute that `__init__` (or any other method) never assigned
  raises `AttributeError`, which we embed by giving such attributes type
  `Option _` with `none` meaning "attribute absent";
* `random.shuffle` is embedded as an arbitrary reordering function supplied
  as a parameter; theorems that depend on it only assume it preserves length
  (which any permutation does);
* the external MatterSim simulator and the visual-feature store are out of
  scope (spec section 6); simulator states are inputs of `get_obs`/`reset`;
* `cal_dtw`/`cal_cls` live in `r2r/eval_utils.py`, which is not part of the
  sources; the `Scores` record therefore carries the fields computed inside
  `_eval_item` itself, which are the ones the claims are about.
-/

namespace R2R

abbrev Viewpoint := String

/-- Embedded Python exceptions raised by the modelled code paths.  The two
assertion sites in `_eval_item` carry distinct messages in the source
(line 294 and line 312), so they are embedded as distinct constructors. -/
inductive PyErr where
  | attrError : PyErr
  | nameError : PyErr
  | keyError : PyErr
  | indexError : PyErr
  | assertStart : PyErr
  | assertGoalEmpty : String → PyErr
deriving DecidableEq, Repr

/-- `ERROR_MARGIN = 3.0` (env.py line 21). -/
def ERROR_MARGIN : ℚ := 3

/-- One dataset record (`instr_data` items), spec section 3 `EpisodeRecord`. -/
structure EpisodeRecord where
  instr_id : String
  scan : String
  path : List Viewpoint
  heading : ℚ
  instruction : String
  objId : Option String
  path_id : Option Nat
deriving DecidableEq, Repr

/-- Python `str` applied to the optional object id: `str(None) = "None"`. -/
def objidStr : Option String → String
  | none => "None"
  | some s => s

/-- The scores dictionary filled in by `_eval_item` (the fields computed in
env.py lines 298-316; the DTW/CLS entries come from the external
`r2r.eval_utils` module, which is not among the sources). -/
structure Scores where
  nav_error : ℚ
  oracle_error : ℚ
  action_steps : ℤ
  trajectory_steps : ℤ
  trajectory_lengths : ℚ
  success : ℚ
  oracle_success : ℚ
  spl : ℚ
deriving DecidableEq, Repr

/-- `np.sum([shortest_distances[a][b] for a, b in zip(p[:-1], p[1:])])`
(env.py lines 303 and 305): the sum of consecutive shortest-path
distances along a path. -/
def pathLen (sd : Viewpoint → Viewpoint → ℚ) (p : List Viewpoint) : ℚ :=
  ((p.zip p.tail).map (fun ab => sd ab.1 ab.2)).sum

/-- `R2RNavBatch._get_nearest` (env.py lines 278-286).  The accumulator pair
carries `(near_id, near_d)` exactly as the source does; `path[0]` on an
empty list is an `IndexError`. -/
def get_nearest (sd : Viewpoint → Viewpoint → ℚ) (goal_id : Viewpoint)
    (path : List Viewpoint) : Except PyErr Viewpoint :=
  match path with
  | [] => .error .indexError
  | v0 :: _ =>
    let r := path.foldl
      (fun acc item => if sd item goal_id < acc.2 then (item, sd item goal_id) else acc)
      (v0, sd v0 goal_id)
    .ok r.1

/-- `R2RNavBatch._eval_item` (env.py lines 288-322).  Parameters:
`sd` is `self.shortest_distances[scan]` (a total distance table for the
scan), `obj2vps` is the `self.obj2vps` attribute with the outer `Option`
recording whether the attribute has ever been assigned (reading an absent
attribute is an `AttributeError`, line 306) and the inner `Option` its
Python value (`None` selects the single-goal policy).  The returned record
omits the DTW/CLS fields (external module, see the file header). -/
def eval_item (sd : Viewpoint → Viewpoint → ℚ)
    (obj2vps : Option (Option (String → List Viewpoint)))
    (scan : String) (pred_path : List (List Viewpoint)) (gt_path : List Viewpoint)
    (gt_objid : Option String) : Except PyErr Scores :=
  match gt_path, pred_path.flatten with
  | [], _ => .error .indexError
  | _ :: _, [] => .error .indexError
  | g0 :: gs, p0 :: ps =>
    if g0 = p0 then
      match get_nearest sd ((g0 :: gs).getLast (List.cons_ne_nil g0 gs)) (p0 :: ps) with
      | .error e => .error e
      | .ok nearest_position =>
        let goal := (g0 :: gs).getLast (List.cons_ne_nil g0 gs)
        let nav_error := sd ((p0 :: ps).getLast (List.cons_ne_nil p0 ps)) goal
        let oracle_error := sd nearest_position goal
        let trajectory_lengths := pathLen sd (p0 :: ps)
        let gt_lengths := pathLen sd (g0 :: gs)
        match obj2vps with
        | none => .error .attrError
        | some none =>
          let success : ℚ := if nav_error < ERROR_MARGIN then 1 else 0
          let oracle_success : ℚ := if oracle_error < ERROR_MARGIN then 1 else 0
          .ok { nav_error := nav_error, oracle_error := oracle_error,
                action_steps := (pred_path.length : ℤ) - 1,
                trajectory_steps := ((p0 :: ps).length : ℤ) - 1,
                trajectory_lengths := trajectory_lengths,
                success := success, oracle_success := oracle_success,
                spl := success * gt_lengths / max (max trajectory_lengths gt_lengths) (1/100) }
        | some (some ovp) =>
          let goal_viewpoints := ovp (scan ++ "_" ++ objidStr gt_objid)
          if goal_viewpoints = [] then
            .error (.assertGoalEmpty (scan ++ "_" ++ objidStr gt_objid))
          else
            let success : ℚ :=
              if (p0 :: ps).getLast (List.cons_ne_nil p0 ps) ∈ goal_viewpoints then 1 else 0
            let oracle_success : ℚ :=
              if (p0 :: ps).any (fun x => decide (x ∈ goal_viewpoints)) then 1 else 0
            .ok { nav_error := nav_error, oracle_error := oracle_error,
                  action_steps := (pred_path.length : ℤ) - 1,
                  trajectory_steps := ((p0 :: ps).length : ℤ) - 1,
                  trajectory_lengths := trajectory_lengths,
                  success := success, oracle_success := oracle_success,
                  spl := success * gt_lengths / max (max trajectory_lengths gt_lengths) (1/100) }
    else .error .assertStart

/-- One precomputed candidate-table value
`[pointId, featureId, distance, heading, elevation, position]`
(env.py lines 196-200). -/
structure CandEntry where
  pointId : Nat
  featureId : Nat
  distance : ℚ
  heading : ℚ
  elevation : ℚ
  position : ℚ × ℚ × ℚ
deriving DecidableEq, Repr

/-- One entry of the list built by `make_candidate` (env.py lines 211-222). -/
structure Candidate (F : Type) where
  heading : ℚ
  elevation : ℚ
  normalized_heading : ℚ
  normalized_elevation : ℚ
  scanId : String
  viewpointId : String
  pointId : Nat
  distance : ℚ
  feature : F
  position : ℚ × ℚ × ℚ
deriving DecidableEq

/-- `R2RNavBatch.make_candidate` (env.py lines 192-224).  `rad30` stands for
the constant `math.radians(30)` (an irrational real; the claims about this
function are algebraic identities that hold for every value of the unit,
so it is a parameter).  `feature` is the per-viewpoint batch of feature
vectors indexed by feature id, `cdict` is `self.candidates_dict`
(a total map; a missing key would be a Python `KeyError`, which no claim
exercises), whose entries are association lists keyed by viewpoint id. -/
def make_candidate {F : Type} (rad30 : ℚ) (feature : Nat → F)
    (scanId viewpointId : String) (viewId : Nat)
    (cdict : String → List (String × CandEntry)) : List (Candidate F) :=
  let base_heading : ℚ := (viewId % 12 : ℕ) * rad30
  let base_elevation : ℚ := (((viewId / 12 : ℕ) : ℤ) - 1 : ℤ) * rad30
  let long_id := scanId ++ "_" ++ viewpointId
  (cdict long_id).map (fun kv =>
    { heading := kv.2.heading - base_heading,
      elevation := kv.2.elevation - base_elevation,
      normalized_heading := kv.2.heading,
      normalized_elevation := kv.2.elevation,
      scanId := scanId,
      viewpointId := kv.1,
      pointId := kv.2.pointId,
      distance := kv.2.distance,
      feature := feature kv.2.featureId,
      position := kv.2.position })

/-- The constructed state of an `R2RNavBatch` instance.  Attributes that
`__init__` assigns only on some code paths are `Option`-valued with `none`
meaning "attribute was never assigned" (reading it raises
`AttributeError`).  Fields that no modelled operation reads (`env`,
`angle_feat_size`, `name`, `server_path`, `connectivity_dir`, `scans`,
`graphs`, `shortest_paths`, `seed`) are omitted. -/
structure R2RNavBatch where
  data : List EpisodeRecord
  batch_size : Nat
  real_world : Bool
  gt_trajs : Option (String → Option (String × List Viewpoint × Option String))
  ix : Option Nat
  shortest_distances : Option (String → Viewpoint → Viewpoint → ℚ)
  candidates_dict : Option (String → List (String × CandEntry))
  obj2vps : Option (Option (String → List Viewpoint))
  batch : Option (List EpisodeRecord)

/-- `R2RNavBatch._get_gt_trajs` (env.py lines 129-139): the dictionary
`{x.instr_id : (x.scan, x.path, x.objId)}` (later records win on duplicate
keys, as in a Python dict comprehension), or `{}` in real-world mode. -/
def get_gt_trajs (real_world : Bool) (data : List EpisodeRecord) :
    String → Option (String × List Viewpoint × Option String) :=
  if real_world then fun _ => none
  else fun id =>
    (data.reverse.find? (fun x => x.instr_id == id)).map (fun x => (x.scan, x.path, x.objId))

/-- `R2RNavBatch.__init__` (env.py lines 85-127).  `shuffle` embeds
`random.shuffle` seeded at line 118; `sd` is the shortest-distance table
that `_load_nav_graphs` would build (lines 144-162, external graph loading
plus Dijkstra) and `cdict` the parsed candidate file (line 124) — in
real-world mode neither attribute is assigned (lines 101, 153-154).
`gt_trajs` is built from the full `instr_data` before the optional
validation split and the shuffle (line 103).  Note that no branch of
`__init__` (nor any other method of the class) assigns `obj2vps` or
`batch`, and that in real-world mode `ix` is never assigned either. -/
def R2RNavBatch.init (shuffle : List EpisodeRecord → List EpisodeRecord)
    (instr_data : List EpisodeRecord) (batch_size : Nat)
    (sel_data_idxs : Option (Nat × Nat)) (real_world : Bool)
    (sd : String → Viewpoint → Viewpoint → ℚ)
    (cdict : String → List (String × CandEntry)) : R2RNavBatch :=
  if real_world then
    { data := instr_data, batch_size := batch_size, real_world := true,
      gt_trajs := none, ix := none, shortest_distances := none,
      candidates_dict := none, obj2vps := none, batch := none }
  else
    let data1 :=
      match sel_data_idxs with
      | none => instr_data
      | some tn =>
        let ndata_per_split := instr_data.length / tn.2
        let start_idx := ndata_per_split * tn.1
        if tn.1 = tn.2 - 1 then instr_data.drop start_idx
        else (instr_data.drop start_idx).take ndata_per_split
    let data2 := shuffle data1
    { data := data2, batch_size := batch_size, real_world := false,
      gt_trajs := some (get_gt_trajs false instr_data),
      ix := some 0, shortest_distances := some sd,
      candidates_dict := some cdict, obj2vps := none, batch := none }

/-- `R2RNavBatch._next_minibatch` (env.py lines 164-181).  `batchSizeArg`
models the optional `batch_size` keyword; the slice
`self.data[self.ix : self.ix + batch_size]` is `drop`/`take`; on a short
slice the whole dataset is reshuffled, the cursor becomes the size of the
missing prefix and the prefix of the reshuffled data is appended.
Reading the never-assigned `ix` attribute (real-world construction) is an
`AttributeError`. -/
def next_minibatch (shuffle : List EpisodeRecord → List EpisodeRecord)
    (st : R2RNavBatch) (batchSizeArg : Option Nat) : Except PyErr R2RNavBatch :=
  let bs0 := batchSizeArg.getD st.batch_size
  let bs := if st.real_world then 1 else bs0
  match st.ix with
  | none => .error .attrError
  | some ix =>
    let batch := (st.data.drop ix).take bs
    if batch.length < bs then
      let data2 := shuffle st.data
      let ix2 := bs - batch.length
      .ok { st with data := data2, ix := some ix2, batch := some (batch ++ data2.take ix2) }
    else
      .ok { st with ix := some (ix + bs), batch := some batch }

/-- `R2RNavBatch.reset_epoch` (env.py lines 183-188). -/
def reset_epoch (shuffle : List EpisodeRecord → List EpisodeRecord)
    (st : R2RNavBatch) (doShuffle : Bool) : R2RNavBatch :=
  { st with data := if doShuffle then shuffle st.data else st.data, ix := some 0 }

/-- One simulator state as produced by `EnvBatch.getStates` (env.py
lines 60-73; the simulator itself is external, spec section 6). -/
structure SimState (F : Type) where
  scanId : String
  viewpoint : Viewpoint
  viewIndex : Nat
  pos : ℚ × ℚ × ℚ
  heading : ℚ
  elevation : ℚ
  navigableLocations : List Viewpoint
  feature : Nat → F

/-- One observation dictionary as assembled by `_get_obs`
(env.py lines 236-256). -/
structure Obs (F : Type) where
  instr_id : String
  scan : String
  viewpoint : Viewpoint
  viewIndex : Nat
  position : ℚ × ℚ × ℚ
  heading : ℚ
  elevation : ℚ
  feature : Nat → F
  candidate : List (Candidate F)
  navigableLocations : List Viewpoint
  instruction : String
  gt_path : List Viewpoint
  path_id : Option Nat
  distance : ℚ

/-- `R2RNavBatch._get_obs` (env.py lines 226-259).  In real-world mode the
source executes the bare name `passf` (line 228), which is not defined
anywhere, so the call raises `NameError` before anything else happens.
Otherwise it zips the simulator states with `self.batch` by position
(`self.batch[i]`, an `IndexError` when out of range), builds the candidate
list through `make_candidate` and attaches the remaining shortest-path
distance to the reference goal when the instruction id has a ground-truth
entry (0 otherwise, lines 253-256). -/
def get_obs {F : Type} (rad30 : ℚ) (st : R2RNavBatch) (states : List (SimState F)) :
    Except PyErr (List (Obs F)) :=
  if st.real_world then
    .error .nameError
  else
    states.enum.mapM (fun ifs =>
      match st.batch with
      | none => .error .attrError
      | some batch =>
        match batch[ifs.1]? with
        | none => .error .indexError
        | some item =>
          match st.candidates_dict with
          | none => .error .attrError
          | some cd =>
            let fs := ifs.2
            let candidate := make_candidate rad30 fs.feature fs.scanId fs.viewpoint fs.viewIndex cd
            match st.gt_trajs with
            | none => .error .attrError
            | some gts =>
              let distE : Except PyErr ℚ :=
                if (gts item.instr_id).isSome then
                  match st.shortest_distances with
                  | none => .error .attrError
                  | some sd =>
                    match item.path.getLast? with
                    | none => .error .indexError
                    | some lastvp => .ok (sd fs.scanId fs.viewpoint lastvp)
                else .ok 0
              distE.map (fun dist =>
                { instr_id := item.instr_id, scan := fs.scanId, viewpoint := fs.viewpoint,
                  viewIndex := fs.viewIndex, position := fs.pos, heading := fs.heading,
                  elevation := fs.elevation, feature := fs.feature, candidate := candidate,
                  navigableLocations := fs.navigableLocations,
                  instruction := item.instruction, gt_path := item.path,
                  path_id := item.path_id, distance := dist }))

/-- `R2RNavBatch.reset` (env.py lines 261-269).  `sim` embeds the external
simulator round trip `newEpisodes` followed by `getStates`: it maps the
`(scan, start viewpoint, heading)` triples extracted from the minibatch to
fresh simulator states.  `item.path[0]` on an empty reference path is an
`IndexError`. -/
def reset {F : Type} (shuffle : List EpisodeRecord → List EpisodeRecord)
    (sim : List (String × Viewpoint × ℚ) → List (SimState F)) (rad30 : ℚ)
    (st : R2RNavBatch) (batchSizeArg : Option Nat) :
    Except PyErr (R2RNavBatch × List (Obs F)) := do
  let st2 ← next_minibatch shuffle st batchSizeArg
  match st2.batch with
  | none => .error .attrError
  | some batch => do
    let triples ← batch.mapM (fun item =>
      match item.path.head? with
      | none => .error (PyErr.indexError)
      | some v0 => .ok (item.scan, v0, item.heading))
    let obs ← get_obs rad30 st2 (sim triples)
    .ok (st2, obs)

/-- `R2RNavBatch.step` (env.py lines 271-274): applies the actions on the
external simulators (out of scope) and re-assembles observations from the
refreshed simulator states. -/
def step {F : Type} (rad30 : ℚ) (st : R2RNavBatch) (statesAfter : List (SimState F)) :
    Except PyErr (List (Obs F)) :=
  get_obs rad30 st statesAfter

/-- One prediction consumed by `eval_metrics`
(`{instr_id, trajectory}`, env.py lines 330-332). -/
structure Prediction where
  instr_id : String
  trajectory : List (List Viewpoint)
deriving DecidableEq, Repr

/-- The body of the per-item loop of `R2RNavBatch.eval_metrics`
(env.py lines 330-334): look up `self.gt_trajs[instr_id]` (an absent
attribute is an `AttributeError`, a missing key a `KeyError`) and score
the prediction with `_eval_item`, which reads
`self.shortest_distances[scan]`. -/
def eval_one (st : R2RNavBatch) (p : Prediction) : Except PyErr Scores :=
  match st.gt_trajs with
  | none => .error .attrError
  | some gts =>
    match gts p.instr_id with
    | none => .error .keyError
    | some sgo =>
      match st.shortest_distances with
      | none => .error .attrError
      | some sd => eval_item (sd sgo.1) st.obj2vps sgo.1 p.trajectory sgo.2.1 sgo.2.2

/-- `R2RNavBatch.eval_metrics` (env.py lines 324-337): the loop over all
predictions; a raised exception aborts it, which `mapM` over `Except`
reproduces.  The final arithmetic-mean aggregation (lines 339-351) is not
needed by any claim and is omitted; the returned list is the per-item
scores in order. -/
def eval_metrics (st : R2RNavBatch) (preds : List Prediction) :
    Except PyErr (List Scores) :=
  preds.mapM (eval_one st)

end R2R

/-! ## Helper lemmas -/

namespace R2R

lemma get_nearest_cons (sd : Viewpoint → Viewpoint → ℚ) (goal v : Viewpoint)
    (l : List Viewpoint) :
    get_nearest sd goal (v :: l) =
      .ok (((v :: l).foldl
        (fun acc item => if sd item goal < acc.2 then (item, sd item goal) else acc)
        (v, sd v goal)).1) := rfl

lemma eval_item_ok_nonempty {sd o2v scan pred_path gt_path gt_objid s}
    (h : eval_item sd o2v scan pred_path gt_path gt_objid = .ok s) :
    ∃ g0 gs p0 ps, gt_path = g0 :: gs ∧ pred_path.flatten = p0 :: ps := by
  cases hgt : gt_path with
  | nil =>
    rw [hgt] at h
    unfold eval_item at h
    simp at h
  | cons g0 gs =>
    cases hfl : pred_path.flatten with
    | nil =>
      rw [hgt] at h
      unfold eval_item at h
      rw [hfl] at h
      simp at h
    | cons p0 ps => exact ⟨g0, gs, p0, ps, rfl, rfl⟩

lemma eval_item_fields {sd o2v scan pred_path gt_path gt_objid} {g0 p0 : Viewpoint}
    {gs ps : List Viewpoint} {s : Scores}
    (hgt : gt_path = g0 :: gs) (hfl : pred_path.flatten = p0 :: ps)
    (h : eval_item sd o2v scan pred_path gt_path gt_objid = .ok s) :
    g0 = p0 ∧
    s.trajectory_lengths = pathLen sd (p0 :: ps) ∧
    s.spl = s.success * pathLen sd (g0 :: gs) /
      max (max s.trajectory_lengths (pathLen sd (g0 :: gs))) (1/100) ∧
    (s.success = 0 ∨ s.success = 1) ∧
    (s.oracle_success = 0 ∨ s.oracle_success = 1) ∧
    s.nav_error = sd ((p0 :: ps).getLast (List.cons_ne_nil p0 ps))
      ((g0 :: gs).getLast (List.cons_ne_nil g0 gs)) := by
  subst hgt
  unfold eval_item at h
  rw [hfl] at h
  dsimp only at h
  split at h
  · rename_i hgp
    refine ⟨hgp, ?_⟩
    split at h
    · exact absurd h (by simp)
    · split at h
      · exact absurd h (by simp)
      · simp only [Except.ok.injEq] at h
        subst h
        refine ⟨rfl, rfl, ?_, ?_, rfl⟩
        · dsimp only; split <;> simp
        · dsimp only; split <;> simp
      · split at h
        · exact absurd h (by simp)
        · simp only [Except.ok.injEq] at h
          subst h
          refine ⟨rfl, rfl, ?_, ?_, rfl⟩
          · dsimp only; split <;> simp
          · dsimp only; split <;> simp
  · exact absurd h (by simp)

lemma eval_item_single_success {sd scan pred_path gt_path gt_objid} {s : Scores}
    (h : eval_item sd (some none) scan pred_path gt_path gt_objid = .ok s) :
    s.success = (if s.nav_error < ERROR_MARGIN then (1 : ℚ) else 0) ∧
    s.oracle_success = (if s.oracle_error < ERROR_MARGIN then (1 : ℚ) else 0) := by
  unfold eval_item at h
  split at h
  · exact absurd h (by simp)
  · exact absurd h (by simp)
  · split at h
    · split at h
      · exact absurd h (by simp)
      · simp only [Except.ok.injEq] at h
        subst h
        constructor <;> rfl
    · exact absurd h (by simp)

lemma eval_item_multi {sd scan pred_path gt_path gt_objid} {f : String → List Viewpoint}
    {g0 p0 : Viewpoint} {gs ps : List Viewpoint}
    (hgt : gt_path = g0 :: gs) (hfl : pred_path.flatten = p0 :: ps) (he : g0 = p0) :
    (f (scan ++ "_" ++ objidStr gt_objid) = [] →
      eval_item sd (some (some f)) scan pred_path gt_path gt_objid =
        .error (.assertGoalEmpty (scan ++ "_" ++ objidStr gt_objid))) ∧
    (∀ s : Scores,
      eval_item sd (some (some f)) scan pred_path gt_path gt_objid = .ok s →
      s.success =
        (if (p0 :: ps).getLast (List.cons_ne_nil p0 ps) ∈ f (scan ++ "_" ++ objidStr gt_objid)
          then (1 : ℚ) else 0) ∧
      s.oracle_success =
        (if (p0 :: ps).any (fun x => decide (x ∈ f (scan ++ "_" ++ objidStr gt_objid)))
          then (1 : ℚ) else 0)) := by
  subst hgt
  constructor
  · intro hempty
    unfold eval_item
    rw [hfl]
    dsimp only
    rw [if_pos he, hempty]
    rfl
  · intro s h
    unfold eval_item at h
    rw [hfl] at h
    dsimp only at h
    rw [if_pos he, get_nearest_cons] at h
    dsimp only at h
    split at h
    · exact absurd h (by simp)
    · simp only [Except.ok.injEq] at h
      subst h
      constructor <;> rfl

lemma eval_item_assertStart_iff {sd o2v scan pred_path gt_path gt_objid}
    {g0 p0 : Viewpoint} {gs ps : List Viewpoint}
    (hgt : gt_path = g0 :: gs) (hfl : pred_path.flatten = p0 :: ps) :
    eval_item sd o2v scan pred_path gt_path gt_objid = .error .assertStart ↔ g0 ≠ p0 := by
  subst hgt
  unfold eval_item
  rw [hfl]
  dsimp only
  by_cases he : g0 = p0
  · rw [if_pos he, get_nearest_cons]
    dsimp only
    simp only [he, ne_eq, not_true_eq_false, iff_false]
    match o2v with
    | none => simp
    | some none => simp
    | some (some f) =>
      dsimp only
      split
      · simp
      · simp
  · rw [if_neg he]
    simpa using he

lemma eval_item_single_total {sd scan pred_path gt_path gt_objid}
    {g0 p0 : Viewpoint} {gs ps : List Viewpoint}
    (hgt : gt_path = g0 :: gs) (hfl : pred_path.flatten = p0 :: ps) (he : g0 = p0) :
    ∃ s : Scores, eval_item sd (some none) scan pred_path gt_path gt_objid = .ok s := by
  subst hgt
  unfold eval_item
  rw [hfl]
  dsimp only
  rw [if_pos he, get_nearest_cons]
  exact ⟨_, rfl⟩

lemma nearest_foldl_spec (sd : Viewpoint → Viewpoint → ℚ) (goal : Viewpoint) :
    ∀ (l : List Viewpoint) (a : Viewpoint),
      sd (l.foldl (fun acc item => if sd item goal < acc.2 then (item, sd item goal) else acc)
          (a, sd a goal)).1 goal ≤ sd a goal ∧
      (∀ x ∈ l,
        sd (l.foldl (fun acc item => if sd item goal < acc.2 then (item, sd item goal) else acc)
          (a, sd a goal)).1 goal ≤ sd x goal) ∧
      (a :: l).find? (fun x => decide (sd x goal =
        sd (l.foldl (fun acc item => if sd item goal < acc.2 then (item, sd item goal) else acc)
          (a, sd a goal)).1 goal)) =
        some (l.foldl (fun acc item => if sd item goal < acc.2 then (item, sd item goal) else acc)
          (a, sd a goal)).1 := by
  intro l
  induction l with
  | nil =>
    intro a
    refine ⟨le_refl _, by simp, ?_⟩
    simp [List.find?]
  | cons x xs ih =>
    intro a
    simp only [List.foldl_cons]
    by_cases hlt : sd x goal < sd a goal
    · simp only [if_pos hlt]
      obtain ⟨ih2, ih3, ih4⟩ := ih x
      have hlt2 : sd (xs.foldl (fun acc item =>
          if sd item goal < acc.2 then (item, sd item goal) else acc) (x, sd x goal)).1 goal
          < sd a goal := lt_of_le_of_lt ih2 hlt
      refine ⟨le_of_lt hlt2, ?_, ?_⟩
      · intro y hy
        rcases List.mem_cons.mp hy with hy | hy
        · subst hy; exact ih2
        · exact ih3 y hy
      · rw [List.find?_cons_of_neg _ (by simp only [decide_eq_true_eq]; exact ne_of_gt hlt2)]
        exact ih4
    · simp only [if_neg hlt]
      push_neg at hlt
      obtain ⟨ih2, ih3, ih4⟩ := ih a
      refine ⟨ih2, ?_, ?_⟩
      · intro y hy
        rcases List.mem_cons.mp hy with hy | hy
        · subst hy; exact le_trans ih2 hlt
        · exact ih3 y hy
      · by_cases hpa : sd a goal = sd (xs.foldl (fun acc item =>
            if sd item goal < acc.2 then (item, sd item goal) else acc) (a, sd a goal)).1 goal
        · rw [List.find?_cons_of_pos _ ?_] at ih4
          · rw [List.find?_cons_of_pos _ ?_]
            · exact ih4
            · exact decide_eq_true hpa
          · exact decide_eq_true hpa
        · rw [List.find?_cons_of_neg _ ?_] at ih4
          · rw [List.find?_cons_of_neg _ ?_]
            · rw [List.find?_cons_of_neg _ ?_]
              · exact ih4
              · simp only [decide_eq_true_eq]
                intro hx
                exact hpa (le_antisymm (hx ▸ hlt) ih2)
            · simpa using hpa
          · simpa using hpa


instance {ε α : Type} [DecidableEq ε] [DecidableEq α] : DecidableEq (Except ε α) := fun a b =>
  match a, b with
  | .ok x, .ok y =>
    if h : x = y then .isTrue (by rw [h]) else .isFalse (fun hc => h (Except.ok.inj hc))
  | .error x, .error y =>
    if h : x = y then .isTrue (by rw [h]) else .isFalse (fun hc => h (Except.error.inj hc))
  | .ok _, .error _ => .isFalse (fun hc => Except.noConfusion hc)
  | .error _, .ok _ => .isFalse (fun hc => Except.noConfusion hc)

/-! ## Concrete instances used by witnesses and counterexamples -/

/-- A small concrete distance table: `G` is one unit from `A` and from `B`,
two units from anything else. -/
def sdW : Viewpoint → Viewpoint → ℚ := fun a b =>
  if a = b then 0
  else if (a = "B" ∧ b = "G") ∨ (a = "G" ∧ b = "B") then 1
  else if (a = "A" ∧ b = "G") ∨ (a = "G" ∧ b = "A") then 1
  else 2

/-! ## Claim theorems -/

/-- Claim C8: for every nonempty ordered sequence of visited viewpoints and
every goal viewpoint, `_get_nearest` returns a viewpoint that is an element
of the path, attains the minimum shortest-path distance to the goal among
all path elements, and is the first element of the path attaining that
minimum (ties broken by first occurrence). -/
theorem C8_nearest_point_on_path (sd : Viewpoint → Viewpoint → ℚ) (goal : Viewpoint)
    (path : List Viewpoint) (hne : path ≠ []) :
    ∃ r, get_nearest sd goal path = .ok r ∧ r ∈ path ∧
      (∀ x ∈ path, sd r goal ≤ sd x goal) ∧
      path.find? (fun x => decide (sd x goal = sd r goal)) = some r := by
  obtain ⟨v0, rest, rfl⟩ := List.exists_cons_of_ne_nil hne
  obtain ⟨h2, h3, h4⟩ := nearest_foldl_spec sd goal (v0 :: rest) v0
  refine ⟨_, get_nearest_cons sd goal v0 rest, ?_, h3, ?_⟩
  · by_cases hd : (fun x => decide (sd x goal =
        sd ((v0 :: rest).foldl
          (fun acc item => if sd item goal < acc.2 then (item, sd item goal) else acc)
          (v0, sd v0 goal)).1 goal)) v0 = true
    · rw [List.find?_cons_of_pos _ ?_] at h4
      · have hv : v0 = ((v0 :: rest).foldl
            (fun acc item => if sd item goal < acc.2 then (item, sd item goal) else acc)
            (v0, sd v0 goal)).1 := Option.some.inj h4
        rw [← hv]
        exact List.mem_cons_self v0 rest
      · exact hd
    · rw [List.find?_cons_of_neg _ ?_] at h4
      · exact List.mem_of_find?_eq_some h4
      · exact hd
  · by_cases hd : (fun x => decide (sd x goal =
        sd ((v0 :: rest).foldl
          (fun acc item => if sd item goal < acc.2 then (item, sd item goal) else acc)
          (v0, sd v0 goal)).1 goal)) v0 = true
    · rw [List.find?_cons_of_pos _ ?_] at h4
      · rw [List.find?_cons_of_pos _ ?_]
        · exact h4
        · exact hd
      · exact hd
    · rw [List.find?_cons_of_neg _ ?_] at h4
      · exact h4
      · exact hd

/-- Witness for C8 at a concrete tie: in the path `[B, A, C]` both `B` and
`A` are one unit from the goal `G`; the returned nearest point is `B`, the
first minimizer. -/
theorem C8_witness :
    ((["B", "A", "C"] : List Viewpoint) ≠ [] ∧
      ∃ r, get_nearest sdW "G" ["B", "A", "C"] = .ok r ∧ r ∈ (["B", "A", "C"] : List Viewpoint) ∧
        (∀ x ∈ (["B", "A", "C"] : List Viewpoint), sdW r "G" ≤ sdW x "G") ∧
        (["B", "A", "C"] : List Viewpoint).find?
          (fun x => decide (sdW x "G" = sdW r "G")) = some r) ∧
    get_nearest sdW "G" ["B", "A", "C"] = .ok "B" :=
  ⟨⟨by decide, C8_nearest_point_on_path sdW "G" ["B", "A", "C"] (by decide)⟩, by decide⟩


/-- The line graph used by the spec test scenarios: viewpoints `A - B - C`
with unit edge weights (distance `A`-`C` is 2); other viewpoints are two
units away. -/
def lineDist : Viewpoint → Viewpoint → ℚ := fun a b =>
  if a = b then 0
  else if (a = "A" ∧ b = "B") ∨ (a = "B" ∧ b = "A") ∨
          (a = "B" ∧ b = "C") ∨ (a = "C" ∧ b = "B") then 1
  else 2

/-- A line graph `A - B - C` with edge weights `3/2`, so that the distance
from `A` to `C` is exactly the error margin `3`. -/
def sdLine3 : Viewpoint → Viewpoint → ℚ := fun a b =>
  if a = b then 0
  else if (a = "A" ∧ b = "C") ∨ (a = "C" ∧ b = "A") then 3
  else 3/2

/-- A goal-membership table: object `7` of scan `S1` is reachable at the
goal viewpoints `C` and `D`; every other key has an empty set. -/
def objTable : String → List Viewpoint := fun k => if k = "S1_7" then ["C", "D"] else []

/-- The scores of the boundary scenario of claim C3
(`nav_error` exactly 3). -/
def sC3 : Scores := ⟨3, 3, 0, 0, 0, 0, 0, 0⟩

/-- The scores of the multi-goal scenario of claim C5. -/
def sC5 : Scores := ⟨2, 1, 0, 2, 3, 1, 1, 2/3⟩

/-- Claim C3: under the single-goal policy (`obj2vps` set to `None`),
`success = 1` iff `nav_error < 3` strictly and `oracle_success = 1` iff
`oracle_error < 3` strictly; at the boundary `nav_error = 3` the item is
not a success. -/
theorem C3_single_goal_strict_margin (sd : Viewpoint → Viewpoint → ℚ) (scan : String)
    (pred_path : List (List Viewpoint)) (gt_path : List Viewpoint)
    (gt_objid : Option String) (s : Scores)
    (h : eval_item sd (some none) scan pred_path gt_path gt_objid = .ok s) :
    (s.success = 1 ↔ s.nav_error < 3) ∧
    (s.oracle_success = 1 ↔ s.oracle_error < 3) ∧
    (s.nav_error = 3 → s.success = 0) := by
  obtain ⟨h1, h2⟩ := eval_item_single_success h
  unfold ERROR_MARGIN at h1 h2
  refine ⟨?_, ?_, ?_⟩
  · rw [h1]
    split_ifs with hc
    · exact iff_of_true rfl hc
    · exact iff_of_false (by norm_num) hc
  · rw [h2]
    split_ifs with hc
    · exact iff_of_true rfl hc
    · exact iff_of_false (by norm_num) hc
  · intro h3
    rw [h1, h3]
    simp

/-- Witness for C3 at the boundary: on the `3/2`-weighted line graph the
agent that never moves has `nav_error = 3` exactly, and `success = 0`. -/
theorem C3_witness :
    eval_item sdLine3 (some none) "S1" [["A"]] ["A", "B", "C"] none = .ok sC3 ∧
    ((sC3.success = 1 ↔ sC3.nav_error < 3) ∧
     (sC3.oracle_success = 1 ↔ sC3.oracle_error < 3) ∧
     (sC3.nav_error = 3 → sC3.success = 0)) :=
  ⟨by simp [eval_item, get_nearest, pathLen, sdLine3, ERROR_MARGIN, sC3],
   C3_single_goal_strict_margin sdLine3 "S1" [["A"]] ["A", "B", "C"] none sC3
     (by simp [eval_item, get_nearest, pathLen, sdLine3, ERROR_MARGIN, sC3])⟩

/-- Claim C9: `_eval_item` fails with the start assertion, before any metric
is produced, exactly when the flattened predicted path and the reference
path have different first viewpoints; when they agree the assertion passes
and (in single-goal mode) scoring completes. -/
theorem C9_start_assertion_iff (sd : Viewpoint → Viewpoint → ℚ)
    (o2v : Option (Option (String → List Viewpoint))) (scan : String)
    (pred_path : List (List Viewpoint)) (gt_path : List Viewpoint)
    (gt_objid : Option String) (g0 p0 : Viewpoint) (gs ps : List Viewpoint)
    (hgt : gt_path = g0 :: gs) (hfl : pred_path.flatten = p0 :: ps) :
    (eval_item sd o2v scan pred_path gt_path gt_objid = .error .assertStart ↔ g0 ≠ p0) ∧
    (g0 = p0 → o2v = some none →
      ∃ s, eval_item sd o2v scan pred_path gt_path gt_objid = .ok s) := by
  refine ⟨eval_item_assertStart_iff hgt hfl, ?_⟩
  intro he ho
  subst ho
  exact eval_item_single_total hgt hfl he

/-- Witness for C9: a predicted path starting at `B` against a reference
path starting at `A` raises the start assertion. -/
theorem C9_witness :
    eval_item lineDist (some none) "S1" [["B"]] ["A", "B", "C"] none = .error .assertStart ∧
    ((eval_item lineDist (some none) "S1" [["B"]] ["A", "B", "C"] none = .error .assertStart ↔
        ("A" : Viewpoint) ≠ "B") ∧
     (("A" : Viewpoint) = "B" →
       (some none : Option (Option (String → List Viewpoint))) = some none →
       ∃ s, eval_item lineDist (some none) "S1" [["B"]] ["A", "B", "C"] none = .ok s)) :=
  ⟨by simp [eval_item, lineDist],
   C9_start_assertion_iff lineDist (some none) "S1" [["B"]] ["A", "B", "C"] none
     "A" "B" ["B", "C"] [] rfl rfl⟩

/-- Claim C5: under the multi-goal policy (`obj2vps` holds a table),
`success = 1` iff the flattened predicted path ends in the goal-viewpoint
set, `oracle_success = 1` iff some visited viewpoint is in the set, and an
empty goal set for the `scan_objid` key is a fatal assertion failure. -/
theorem C5_multi_goal_policy (sd : Viewpoint → Viewpoint → ℚ) (scan : String)
    (pred_path : List (List Viewpoint)) (gt_path : List Viewpoint)
    (gt_objid : Option String) (f : String → List Viewpoint)
    (g0 p0 : Viewpoint) (gs ps : List Viewpoint)
    (hgt : gt_path = g0 :: gs) (hfl : pred_path.flatten = p0 :: ps) (he : g0 = p0) :
    (f (scan ++ "_" ++ objidStr gt_objid) = [] →
      eval_item sd (some (some f)) scan pred_path gt_path gt_objid =
        .error (.assertGoalEmpty (scan ++ "_" ++ objidStr gt_objid))) ∧
    (∀ s, eval_item sd (some (some f)) scan pred_path gt_path gt_objid = .ok s →
      (s.success = 1 ↔ (p0 :: ps).getLast (List.cons_ne_nil p0 ps) ∈
        f (scan ++ "_" ++ objidStr gt_objid)) ∧
      (s.oracle_success = 1 ↔ ∃ x ∈ p0 :: ps, x ∈ f (scan ++ "_" ++ objidStr gt_objid))) := by
  obtain ⟨hA, hB⟩ := eval_item_multi hgt hfl he
  refine ⟨hA, ?_⟩
  intro s hs
  obtain ⟨h1, h2⟩ := hB s hs
  constructor
  · rw [h1]
    split_ifs with hc
    · exact iff_of_true rfl hc
    · exact iff_of_false (by norm_num) hc
  · rw [h2]
    split_ifs with hc
    · simp only [List.any_eq_true, decide_eq_true_eq] at hc
      exact iff_of_true rfl hc
    · simp only [List.any_eq_true, decide_eq_true_eq] at hc
      exact iff_of_false (by norm_num) hc

/-- Witness for C5: goal set `{C, D}`, predicted path `[A, B, D]` ending at
`D` scores `success = 1`; the same item under object id `9` (empty goal
set) raises the data-integrity assertion. -/
theorem C5_witness :
    eval_item lineDist (some (some objTable)) "S1" [["A", "B", "D"]] ["A", "C"] (some "7") =
      .ok sC5 ∧
    eval_item lineDist (some (some objTable)) "S1" [["A", "B", "D"]] ["A", "C"] (some "9") =
      .error (.assertGoalEmpty "S1_9") ∧
    ((objTable ("S1" ++ "_" ++ objidStr (some "7")) = [] →
      eval_item lineDist (some (some objTable)) "S1" [["A", "B", "D"]] ["A", "C"] (some "7") =
        .error (.assertGoalEmpty ("S1" ++ "_" ++ objidStr (some "7")))) ∧
     (∀ s, eval_item lineDist (some (some objTable)) "S1" [["A", "B", "D"]] ["A", "C"]
        (some "7") = .ok s →
      (s.success = 1 ↔ (("A" : Viewpoint) :: ["B", "D"]).getLast
          (List.cons_ne_nil "A" ["B", "D"]) ∈ objTable ("S1" ++ "_" ++ objidStr (some "7"))) ∧
      (s.oracle_success = 1 ↔ ∃ x ∈ ("A" : Viewpoint) :: ["B", "D"],
        x ∈ objTable ("S1" ++ "_" ++ objidStr (some "7"))))) :=
  ⟨by simp [eval_item, get_nearest, pathLen, lineDist, objTable, objidStr, sC5]; norm_num,
   by simp [eval_item, get_nearest, pathLen, lineDist, objTable, objidStr],
   C5_multi_goal_policy lineDist "S1" [["A", "B", "D"]] ["A", "C"] (some "7") objTable
     "A" "A" ["C"] ["B", "D"] rfl rfl rfl⟩


/-- A distance table whose only nonzero distance is `1/200`, below the
SPL denominator floor of `1/100`. -/
def sdEps : Viewpoint → Viewpoint → ℚ := fun a b => if a = b then 0 else 1/200

/-- The scores of the end-to-end line-graph scenario (reference
`[A, B, C]`, prediction `[[A], [B, C]]`). -/
def sC6 : Scores := ⟨0, 0, 1, 2, 2, 1, 1, 1⟩

/-- A path length is nonnegative when the distance table is. -/
lemma pathLen_nonneg (sd : Viewpoint → Viewpoint → ℚ) (hsd : ∀ a b, 0 ≤ sd a b)
    (p : List Viewpoint) : 0 ≤ pathLen sd p := by
  apply List.sum_nonneg
  intro x hx
  rw [List.mem_map] at hx
  obtain ⟨ab, _, rfl⟩ := hx
  exact hsd ab.1 ab.2

/-- Claim C6: for every evaluated item, `spl` equals
`success * gt_length / max (predicted_length) (gt_length) (1/100)` where the
lengths are the sums of consecutive shortest-path distances along the
flattened predicted path and the reference path; the denominator is
floored at `1/100`, so the division is always by a positive number. -/
theorem C6_spl_formula (sd : Viewpoint → Viewpoint → ℚ)
    (o2v : Option (Option (String → List Viewpoint))) (scan : String)
    (pred_path : List (List Viewpoint)) (gt_path : List Viewpoint)
    (gt_objid : Option String) (s : Scores)
    (h : eval_item sd o2v scan pred_path gt_path gt_objid = .ok s) :
    s.trajectory_lengths = pathLen sd pred_path.flatten ∧
    s.spl = s.success * pathLen sd gt_path /
      max (max s.trajectory_lengths (pathLen sd gt_path)) (1/100) := by
  obtain ⟨g0, gs, p0, ps, hgt, hfl⟩ := eval_item_ok_nonempty h
  obtain ⟨_, h2, h3, _⟩ := eval_item_fields hgt hfl h
  constructor
  · rw [h2, hfl]
  · rw [h3, hgt]

/-- Witness for C6 at the end-to-end line-graph scenario. -/
theorem C6_witness :
    eval_item lineDist (some none) "S1" [["A"], ["B", "C"]] ["A", "B", "C"] none = .ok sC6 ∧
    (sC6.trajectory_lengths = pathLen lineDist ([["A"], ["B", "C"]] : List (List Viewpoint)).flatten ∧
     sC6.spl = sC6.success * pathLen lineDist ["A", "B", "C"] /
       max (max sC6.trajectory_lengths (pathLen lineDist ["A", "B", "C"])) (1/100)) :=
  ⟨by simp [eval_item, get_nearest, pathLen, lineDist, ERROR_MARGIN, sC6] <;>
      norm_num [sup_eq_max, max_def],
   C6_spl_formula lineDist (some none) "S1" [["A"], ["B", "C"]] ["A", "B", "C"] none sC6
     (by simp [eval_item, get_nearest, pathLen, lineDist, ERROR_MARGIN, sC6] <;>
       norm_num [sup_eq_max, max_def])⟩

/-- Counterexample to claim C7 as stated: on a graph with edge weight
`1/200`, prediction `[[A, B]]` against reference `[A, B]` has equal,
nonzero predicted and reference lengths (both `1/200`), `success = 1`,
yet `spl = 1/2`, not `success` — the `1/100` floor binds. -/
theorem C7_counterexample :
    eval_item sdEps (some none) "S" [["A", "B"]] ["A", "B"] none =
      .ok ⟨0, 0, 0, 1, 1/200, 1, 1, 1/2⟩ ∧
    pathLen sdEps ["A", "B"] = 1/200 ∧
    ¬ ((1/200 : ℚ) = 0) ∧ ¬ ((1/2 : ℚ) = 1) := by
  refine ⟨?_, ?_, by norm_num, by norm_num⟩
  · simp [eval_item, get_nearest, pathLen, sdEps, ERROR_MARGIN]
    norm_num
  · simp [pathLen, sdEps]

/-- Claim C7 (amended): `spl` always lies in `[0, 1]` (given a nonnegative
distance table), and `spl = success` whenever the predicted length equals
the reference length, provided that common length is at least the `1/100`
floor. -/
theorem C7_spl_bounds_amended (sd : Viewpoint → Viewpoint → ℚ)
    (o2v : Option (Option (String → List Viewpoint))) (scan : String)
    (pred_path : List (List Viewpoint)) (gt_path : List Viewpoint)
    (gt_objid : Option String) (s : Scores)
    (hsd : ∀ a b, 0 ≤ sd a b)
    (h : eval_item sd o2v scan pred_path gt_path gt_objid = .ok s) :
    (0 ≤ s.spl ∧ s.spl ≤ 1) ∧
    (s.trajectory_lengths = pathLen sd gt_path → (1/100 : ℚ) ≤ pathLen sd gt_path →
      s.spl = s.success) := by
  obtain ⟨g0, gs, p0, ps, hgt, hfl⟩ := eval_item_ok_nonempty h
  subst hgt
  obtain ⟨_, hT, hspl, hsucc, _, _⟩ := eval_item_fields rfl hfl h
  have hG : (0:ℚ) ≤ pathLen sd (g0 :: gs) := pathLen_nonneg sd hsd _
  have hMpos : (0:ℚ) < max (max s.trajectory_lengths (pathLen sd (g0 :: gs))) (1/100) :=
    lt_of_lt_of_le (by norm_num) (le_max_right _ _)
  have hGM : pathLen sd (g0 :: gs) ≤
      max (max s.trajectory_lengths (pathLen sd (g0 :: gs))) (1/100) :=
    le_trans (le_max_right _ _) (le_max_left _ _)
  refine ⟨⟨?_, ?_⟩, ?_⟩
  · rw [hspl]
    rcases hsucc with h0 | h1
    · rw [h0]
      simp
    · rw [h1, one_mul]
      exact div_nonneg hG (le_of_lt hMpos)
  · rw [hspl]
    rcases hsucc with h0 | h1
    · rw [h0]
      simp
    · rw [h1, one_mul]
      exact (div_le_one hMpos).mpr hGM
  · intro hTG h100
    have hM : max (max s.trajectory_lengths (pathLen sd (g0 :: gs))) (1/100) =
        pathLen sd (g0 :: gs) := by
      rw [hTG, max_self]
      exact max_eq_left h100
    rw [hspl, hM]
    rcases hsucc with h0 | h1
    · rw [h0]
      simp
    · rw [h1, one_mul]
      exact div_self (ne_of_gt (lt_of_lt_of_le (by norm_num) h100))

/-- Witness for the amended C7: the unit-weight line-graph scenario, where
the common length 2 clears the floor and `spl = success = 1`. -/
theorem C7_witness :
    (∀ a b, 0 ≤ lineDist a b) ∧
    eval_item lineDist (some none) "S1" [["A"], ["B", "C"]] ["A", "B", "C"] none = .ok sC6 ∧
    ((0 ≤ sC6.spl ∧ sC6.spl ≤ 1) ∧
     (sC6.trajectory_lengths = pathLen lineDist ["A", "B", "C"] →
       (1/100 : ℚ) ≤ pathLen lineDist ["A", "B", "C"] → sC6.spl = sC6.success)) :=
  ⟨by intro a b; unfold lineDist; split_ifs <;> norm_num,
   by simp [eval_item, get_nearest, pathLen, lineDist, ERROR_MARGIN, sC6] <;>
     norm_num [sup_eq_max, max_def],
   C7_spl_bounds_amended lineDist (some none) "S1" [["A"], ["B", "C"]] ["A", "B", "C"] none sC6
     (by intro a b; unfold lineDist; split_ifs <;> norm_num)
     (by simp [eval_item, get_nearest, pathLen, lineDist, ERROR_MARGIN, sC6] <;>
       norm_num [sup_eq_max, max_def])⟩



/-- A trivial all-zero distance table (used where distances are irrelevant). -/
def sdZero : String → Viewpoint → Viewpoint → ℚ := fun _ _ _ => 0

/-- An empty candidate dictionary. -/
def cdEmpty : String → List (String × CandEntry) := fun _ => []

/-- The n-th record of a small synthetic dataset. -/
def recN (n : Nat) : EpisodeRecord := ⟨"i" ++ toString n, "S", ["A"], 0, "", none, none⟩

/-- An orchestrator over a one-record dataset with batch size 3 (the
configuration refuting the universal form of claim C4). -/
def stC4 : R2RNavBatch := R2RNavBatch.init id [recN 0] 3 none false sdZero cdEmpty

/-- A ten-record dataset, as in the spec wraparound scenario. -/
def data10 : List EpisodeRecord := (List.range 10).map recN

/-- An orchestrator over `data10` with batch size 4. -/
def stW0 : R2RNavBatch := R2RNavBatch.init id data10 4 none false sdZero cdEmpty

/-- One `_next_minibatch` call with default arguments (identity shuffle),
keeping the old state on error (no error occurs in the runs below). -/
def nmStep (st : R2RNavBatch) : R2RNavBatch :=
  match next_minibatch id st none with
  | .ok st2 => st2
  | .error _ => st

/-- Claim C4 (amended): provided the effective batch size does not exceed
the dataset size and the cursor is in range, `_next_minibatch` succeeds,
the assembled minibatch has exactly that many items (reshuffling and
wrapping with a fresh prefix when fewer records remain past the cursor),
and the new cursor is in range again. -/
theorem C4_minibatch_exact_size_amended
    (shuffle : List EpisodeRecord → List EpisodeRecord)
    (hsh : ∀ l, (shuffle l).length = l.length)
    (st : R2RNavBatch) (batchSizeArg : Option Nat) (ix bs : Nat)
    (hix : st.ix = some ix)
    (hbs : bs = if st.real_world then 1 else batchSizeArg.getD st.batch_size)
    (hixle : ix ≤ st.data.length)
    (hbsle : bs ≤ st.data.length) :
    ∃ st2, next_minibatch shuffle st batchSizeArg = .ok st2 ∧
      (∃ b, st2.batch = some b ∧ b.length = bs) ∧
      (∃ ix2, st2.ix = some ix2 ∧ ix2 ≤ st2.data.length) := by
  unfold next_minibatch
  rw [hix]
  dsimp only
  rw [← hbs]
  by_cases hlt : ((st.data.drop ix).take bs).length < bs
  · rw [if_pos hlt]
    refine ⟨_, rfl, ⟨_, rfl, ?_⟩, ⟨_, rfl, ?_⟩⟩
    · simp only [List.length_append, List.length_take, List.length_drop, hsh] at hlt ⊢
      omega
    · simp only [List.length_take, List.length_drop, hsh] at hlt ⊢
      omega
  · rw [if_neg hlt]
    refine ⟨_, rfl, ⟨_, rfl, ?_⟩, ⟨_, rfl, ?_⟩⟩
    · simp only [List.length_take, List.length_drop] at hlt ⊢
      omega
    · simp only [List.length_take, List.length_drop] at hlt ⊢
      omega

/-- Counterexample to claim C4 as stated: with one record and batch size 3,
a `_next_minibatch` call does not raise, but the wrapped batch has only 2
items (remainder of 1 plus the whole reshuffled dataset), not
`batchSize = 3` — and the new cursor 2 even exceeds the dataset size. -/
theorem C4_counterexample :
    (next_minibatch id stC4 none).toOption.map
      (fun st2 => (st2.batch.map List.length, st2.ix)) = some (some 2, some 2) ∧
    stC4.batch_size = 3 ∧ stC4.data.length = 1 ∧ stC4.ix = some 0 ∧
    stC4.real_world = false :=
  ⟨by decide, by decide, by decide, by decide, by decide⟩

/-- Witness for the amended C4: dataset of 10, batch size 4, three
successive calls draw 4 + 4 + 4 record slots; the third wraps, ending
with cursor 2, instead of raising. -/
theorem C4_witness :
    ((nmStep stW0).batch.map List.length = some 4 ∧ (nmStep stW0).ix = some 4) ∧
    ((nmStep (nmStep stW0)).batch.map List.length = some 4 ∧
      (nmStep (nmStep stW0)).ix = some 8) ∧
    ((nmStep (nmStep (nmStep stW0))).batch.map List.length = some 4 ∧
      (nmStep (nmStep (nmStep stW0))).ix = some 2) ∧
    (∃ st2, next_minibatch id (nmStep (nmStep stW0)) none = .ok st2 ∧
      (∃ b, st2.batch = some b ∧ b.length = 4) ∧
      (∃ ix2, st2.ix = some ix2 ∧ ix2 ≤ st2.data.length)) :=
  ⟨⟨by decide, by decide⟩, ⟨by decide, by decide⟩, ⟨by decide, by decide⟩,
   C4_minibatch_exact_size_amended id (fun l => rfl) (nmStep (nmStep stW0)) none 8 4
     (by decide) (by decide) (by decide) (by decide)⟩



/-- Reading the never-assigned `obj2vps` attribute makes `_eval_item`
raise `AttributeError`, once the start assertion has passed. -/
lemma eval_item_attrError {sd : Viewpoint → Viewpoint → ℚ} {scan pred_path gt_path gt_objid}
    {g0 p0 : Viewpoint} {gs ps : List Viewpoint}
    (hgt : gt_path = g0 :: gs) (hfl : pred_path.flatten = p0 :: ps) (he : g0 = p0) :
    eval_item sd none scan pred_path gt_path gt_objid = .error .attrError := by
  subst hgt
  unfold eval_item
  rw [hfl]
  dsimp only
  rw [if_pos he, get_nearest_cons]

/-- An exception on the first prediction aborts the whole
`eval_metrics` loop. -/
lemma eval_metrics_cons_error {st : R2RNavBatch} {p : Prediction} {e : PyErr}
    (rest : List Prediction) (h : eval_one st p = .error e) :
    eval_metrics st (p :: rest) = .error e := by
  unfold eval_metrics
  rw [List.mapM_cons, h]
  rfl

/-- A successful single-item evaluation yields a one-element score list. -/
lemma eval_metrics_singleton_ok {st : R2RNavBatch} {p : Prediction} {s : Scores}
    (h : eval_one st p = .ok s) :
    eval_metrics st [p] = .ok [s] := by
  unfold eval_metrics
  rw [List.mapM_cons, h]
  rfl

/-- The per-item evaluation raises `AttributeError` on a state whose
`obj2vps` attribute was never assigned. -/
lemma eval_one_attrError {st : R2RNavBatch} {p : Prediction}
    {gts : String → Option (String × List Viewpoint × Option String)}
    {scan : String} {gt_traj : List Viewpoint} {gt_objid : Option String}
    {sd : String → Viewpoint → Viewpoint → ℚ}
    (hg : st.gt_trajs = some gts) (hl : gts p.instr_id = some (scan, gt_traj, gt_objid))
    (hs : st.shortest_distances = some sd) (ho : st.obj2vps = none)
    {g0 p0 : Viewpoint} {gs ps : List Viewpoint}
    (hgt : gt_traj = g0 :: gs) (hfl : p.trajectory.flatten = p0 :: ps) (he : g0 = p0) :
    eval_one st p = .error .attrError := by
  unfold eval_one
  rw [hg]
  dsimp only
  rw [hl]
  dsimp only
  rw [hs]
  dsimp only
  rw [ho]
  exact eval_item_attrError hgt hfl he

/-- The per-item evaluation succeeds once `obj2vps` is assigned `None`. -/
lemma eval_one_ok_single {st : R2RNavBatch} {p : Prediction}
    {gts : String → Option (String × List Viewpoint × Option String)}
    {scan : String} {gt_traj : List Viewpoint} {gt_objid : Option String}
    {sd : String → Viewpoint → Viewpoint → ℚ}
    (hg : st.gt_trajs = some gts) (hl : gts p.instr_id = some (scan, gt_traj, gt_objid))
    (hs : st.shortest_distances = some sd) (ho : st.obj2vps = some none)
    {g0 p0 : Viewpoint} {gs ps : List Viewpoint}
    (hgt : gt_traj = g0 :: gs) (hfl : p.trajectory.flatten = p0 :: ps) (he : g0 = p0) :
    ∃ s, eval_one st p = .ok s := by
  unfold eval_one
  rw [hg]
  dsimp only
  rw [hl]
  dsimp only
  rw [hs]
  dsimp only
  rw [ho]
  exact eval_item_single_total hgt hfl he

/-- Claim C1 (code bug): in real-world mode `__init__` never assigns `ix`,
`gt_trajs`, `shortest_distances` or `candidates_dict` (lines 101-127,
153-154), so `reset` raises `AttributeError` inside `_next_minibatch`
(line 174 reads `self.ix`), and `_get_obs` executes the undefined name
`passf` (line 228), a `NameError` — `reset`/`step` never return a
pose-only Observation; they fail. -/
theorem C1_real_world_mode_raises {F : Type}
    (shuffle : List EpisodeRecord → List EpisodeRecord)
    (sim : List (String × Viewpoint × ℚ) → List (SimState F)) (rad30 : ℚ)
    (instr_data : List EpisodeRecord) (batch_size : Nat)
    (sel_data_idxs : Option (Nat × Nat))
    (sd : String → Viewpoint → Viewpoint → ℚ)
    (cdict : String → List (String × CandEntry))
    (batchSizeArg : Option Nat) (states : List (SimState F)) :
    let st := R2RNavBatch.init shuffle instr_data batch_size sel_data_idxs true sd cdict
    st.shortest_distances = none ∧ st.gt_trajs = none ∧ st.ix = none ∧
    next_minibatch shuffle st batchSizeArg = .error .attrError ∧
    reset shuffle sim rad30 st batchSizeArg = .error .attrError ∧
    get_obs rad30 st states = .error .nameError ∧
    step rad30 st states = .error .nameError :=
  ⟨rfl, rfl, rfl, rfl, rfl, rfl, rfl⟩

/-- Claim C2: no operation of the class ever assigns `obj2vps`, so a
freshly constructed instance has the attribute absent, `eval_metrics`
fails with an attribute-lookup error on the first scored prediction
(before computing success), and assigning `obj2vps := None` externally
makes the same call succeed. -/
theorem C2_obj2vps_never_assigned
    (shuffle : List EpisodeRecord → List EpisodeRecord)
    (instr_data : List EpisodeRecord) (batch_size : Nat)
    (sel_data_idxs : Option (Nat × Nat))
    (sd : String → Viewpoint → Viewpoint → ℚ)
    (cdict : String → List (String × CandEntry))
    (p : Prediction) (rest : List Prediction)
    (scan : String) (gt_traj : List Viewpoint) (gt_objid : Option String)
    (g0 p0 : Viewpoint) (gs ps : List Viewpoint)
    (hlook : get_gt_trajs false instr_data p.instr_id = some (scan, gt_traj, gt_objid))
    (hgt : gt_traj = g0 :: gs) (hfl : p.trajectory.flatten = p0 :: ps) (he : g0 = p0) :
    (R2RNavBatch.init shuffle instr_data batch_size sel_data_idxs false sd cdict).obj2vps
      = none ∧
    eval_metrics (R2RNavBatch.init shuffle instr_data batch_size sel_data_idxs false sd cdict)
      (p :: rest) = .error .attrError ∧
    ∃ s, eval_metrics
      { R2RNavBatch.init shuffle instr_data batch_size sel_data_idxs false sd cdict with
        obj2vps := some none } [p] = .ok [s] := by
  refine ⟨rfl, ?_, ?_⟩
  · exact eval_metrics_cons_error rest
      (eval_one_attrError rfl hlook rfl rfl hgt hfl he)
  · obtain ⟨s, hs⟩ := @eval_one_ok_single
      { R2RNavBatch.init shuffle instr_data batch_size sel_data_idxs false sd cdict with
        obj2vps := some none }
      p (get_gt_trajs false instr_data) scan gt_traj gt_objid sd rfl hlook rfl rfl
      g0 p0 gs ps hgt hfl he
    exact ⟨s, eval_metrics_singleton_ok hs⟩

/-- A single dataset record for the C2 witness. -/
def recC2 : EpisodeRecord := ⟨"p1", "S", ["A", "B"], 0, "", none, none⟩

/-- A prediction matching `recC2` by instruction id. -/
def predC2 : Prediction := ⟨"p1", [["A", "B"]]⟩

/-- A freshly constructed (non-real-world) instance over `[recC2]`. -/
def stC2 : R2RNavBatch := R2RNavBatch.init id [recC2] 64 none false sdZero cdEmpty

/-- Witness for C2 on a concrete one-record instance. -/
theorem C2_witness :
    stC2.obj2vps = none ∧
    eval_metrics stC2 [predC2] = .error .attrError ∧
    ∃ s, eval_metrics { stC2 with obj2vps := some none } [predC2] = .ok [s] :=
  C2_obj2vps_never_assigned id [recC2] 64 none sdZero cdEmpty predC2 []
    "S" ["A", "B"] none "A" "A" ["B"] ["B"] (by decide) rfl rfl rfl



/-- A candidate dictionary with a single entry for viewpoint `V` of scan
`S`: neighbor `W` with point id 3, feature index 2, distance 5, absolute
heading 100 and absolute elevation 50. -/
def cdictW : String → List (String × CandEntry) := fun k =>
  if k = "S_V" then [("W", ⟨3, 2, 5, 100, 50, (0, 0, 0)⟩)] else []

/-- Claim C10: for every view index and every candidate-table entry, the
candidate built by `make_candidate` has relative heading
`absolute - (viewId mod 12) * rad30` and relative elevation
`absolute - (viewId div 12 - 1) * rad30`, adding the base offsets back
round-trips exactly to the stored absolute `normalized_heading` and
`normalized_elevation` carried in the same record, and the feature vector
is the entry of the current feature batch selected by the precomputed
feature index (both directions: every table entry yields such a
candidate, and every candidate comes from a table entry). -/
theorem C10_candidate_projection {F : Type} (rad30 : ℚ) (feature : Nat → F)
    (scanId viewpointId : String) (viewId : Nat)
    (cdict : String → List (String × CandEntry))
    (hview : viewId < 36) :
    (∀ kv ∈ cdict (scanId ++ "_" ++ viewpointId),
      ∃ c ∈ make_candidate rad30 feature scanId viewpointId viewId cdict,
        c.heading = kv.2.heading - ((viewId % 12 : ℕ) : ℚ) * rad30 ∧
        c.elevation = kv.2.elevation - ((((viewId / 12 : ℕ) : ℤ) - 1 : ℤ) : ℚ) * rad30 ∧
        c.heading + ((viewId % 12 : ℕ) : ℚ) * rad30 = c.normalized_heading ∧
        c.elevation + ((((viewId / 12 : ℕ) : ℤ) - 1 : ℤ) : ℚ) * rad30 =
          c.normalized_elevation ∧
        c.normalized_heading = kv.2.heading ∧
        c.normalized_elevation = kv.2.elevation ∧
        c.feature = feature kv.2.featureId) ∧
    (∀ c ∈ make_candidate rad30 feature scanId viewpointId viewId cdict,
      ∃ kv ∈ cdict (scanId ++ "_" ++ viewpointId),
        c.heading = kv.2.heading - ((viewId % 12 : ℕ) : ℚ) * rad30 ∧
        c.elevation = kv.2.elevation - ((((viewId / 12 : ℕ) : ℤ) - 1 : ℤ) : ℚ) * rad30 ∧
        c.heading + ((viewId % 12 : ℕ) : ℚ) * rad30 = c.normalized_heading ∧
        c.elevation + ((((viewId / 12 : ℕ) : ℤ) - 1 : ℤ) : ℚ) * rad30 =
          c.normalized_elevation ∧
        c.normalized_heading = kv.2.heading ∧
        c.normalized_elevation = kv.2.elevation ∧
        c.feature = feature kv.2.featureId) := by
  constructor
  · intro kv hkv
    simp only [make_candidate]
    refine ⟨_, List.mem_map_of_mem _ hkv, ?_, ?_, ?_, ?_, ?_, ?_, ?_⟩ <;>
      first
        | rfl
        | (dsimp only; ring)
  · intro c hc
    simp only [make_candidate, List.mem_map] at hc
    obtain ⟨kv, hkv, rfl⟩ := hc
    refine ⟨kv, hkv, ?_, ?_, ?_, ?_, ?_, ?_, ?_⟩ <;>
      first
        | rfl
        | (dsimp only; ring)

/-- Witness for C10 at view index 17 (gaze sector 5, horizon band) with
base unit 7: the single table entry projects to relative heading
`100 - 35 = 65` and relative elevation `50 - 0 = 50`. -/
theorem C10_witness :
    make_candidate 7 (fun n => (n : ℚ)) "S" "V" 17 cdictW =
      [⟨65, 50, 100, 50, "S", "W", 3, 5, 2, (0, 0, 0)⟩] ∧
    ((∀ kv ∈ cdictW ("S" ++ "_" ++ "V"),
      ∃ c ∈ make_candidate 7 (fun n => (n : ℚ)) "S" "V" 17 cdictW,
        c.heading = kv.2.heading - ((17 % 12 : ℕ) : ℚ) * 7 ∧
        c.elevation = kv.2.elevation - ((((17 / 12 : ℕ) : ℤ) - 1 : ℤ) : ℚ) * 7 ∧
        c.heading + ((17 % 12 : ℕ) : ℚ) * 7 = c.normalized_heading ∧
        c.elevation + ((((17 / 12 : ℕ) : ℤ) - 1 : ℤ) : ℚ) * 7 = c.normalized_elevation ∧
        c.normalized_heading = kv.2.heading ∧
        c.normalized_elevation = kv.2.elevation ∧
        c.feature = (fun n => (n : ℚ)) kv.2.featureId) ∧
     (∀ c ∈ make_candidate 7 (fun n => (n : ℚ)) "S" "V" 17 cdictW,
      ∃ kv ∈ cdictW ("S" ++ "_" ++ "V"),
        c.heading = kv.2.heading - ((17 % 12 : ℕ) : ℚ) * 7 ∧
        c.elevation = kv.2.elevation - ((((17 / 12 : ℕ) : ℤ) - 1 : ℤ) : ℚ) * 7 ∧
        c.heading + ((17 % 12 : ℕ) : ℚ) * 7 = c.normalized_heading ∧
        c.elevation + ((((17 / 12 : ℕ) : ℤ) - 1 : ℤ) : ℚ) * 7 = c.normalized_elevation ∧
        c.normalized_heading = kv.2.heading ∧
        c.normalized_elevation = kv.2.elevation ∧
        c.feature = (fun n => (n : ℚ)) kv.2.featureId)) :=
  ⟨by simp [make_candidate, cdictW] <;> norm_num,
   C10_candidate_projection 7 (fun n => (n : ℚ)) "S" "V" 17 cdictW (by norm_num)⟩


end R2R
